import Mathlib

/-!
Verification of the `system-access-frontend` dashboard core
(`src/api/index.js`, `src/utils/index.js`, `src/components/LogTable.jsx`,
`src/pages/AccessLogs.jsx`, `src/pages/Dashboard.jsx`).

Modelling conventions (shallow embedding of the JavaScript source):
* A JS object field that may be `undefined` is an `Option` value; `none` is
  `undefined`/absent.
* JS `a || b` on string fields is falsy on `undefined` and on the empty
  string; on number fields it is falsy on `undefined` and on `0`.
* JS numbers are modelled as `ℚ` (no float-critical logic is verified).
* ISO-8601 timestamp strings are modelled by their epoch-millisecond value
  (`Int`): `Date.prototype.toISOString` is injective on epoch milliseconds,
  and a timestamp string is never empty, hence truthy exactly when present.
* Spread-normalized records (`{...obj, f: v, ...}`) are record updates; raw
  fields that the source never rewrites (including unknown extra fields,
  kept here as an association list `extra`) pass through unchanged.
-/

/-- JS `a || b` for string-valued fields: `undefined` and `""` are falsy. -/
def jsStrOr (a b : Option String) : Option String :=
  match a with
  | none => b
  | some s => if s = "" then b else some s

/-- JS `a || d` for a string field with a defined (string) default. -/
def strOrDefault (a : Option String) (d : String) : String :=
  match a with
  | none => d
  | some s => if s = "" then d else s

/-- JS `a || b` for number-valued fields: `undefined` and `0` are falsy. -/
def jsNumOr (a b : Option ℚ) : Option ℚ :=
  match a with
  | none => b
  | some x => if x = 0 then b else some x

/-- JS `a || d` for a number field with a defined (number) default. -/
def numOrDefault (a : Option ℚ) (d : ℚ) : ℚ :=
  match a with
  | none => d
  | some x => if x = 0 then d else x

/-- JS `a || b` for numeric id fields: `undefined` and `0` are falsy. -/
def jsIntOr (a b : Option Int) : Option Int :=
  match a with
  | none => b
  | some x => if x = 0 then b else some x

/-- JS `a || b` for timestamp fields. Timestamps are ISO strings in the
source, modelled as epoch milliseconds; an ISO string is non-empty, so it
is truthy exactly when the field is present. -/
def tsOr (a b : Option Int) : Option Int :=
  match a with
  | none => b
  | some t => some t

/-- JS regex `\w`: ASCII letters, digits and underscore. -/
def isWordChar (c : Char) : Bool :=
  c.isAlphanum || c = '_'

/-- `String.prototype.replace('_', ' ')` replaces the first occurrence only
(source: `utils/index.js`, `formatCameraName`). -/
def replaceFirstUnderscore : List Char → List Char
  | [] => []
  | c :: cs => if c = '_' then ' ' :: cs else c :: replaceFirstUnderscore cs

/-- `replace(/\b\w/g, l => l.toUpperCase())`: uppercase every word character
that starts a word (previous character absent or not a word character). -/
def upWordStarts : Bool → List Char → List Char
  | _, [] => []
  | prev, c :: cs =>
    (if isWordChar c && !prev then c.toUpper else c) :: upWordStarts (isWordChar c) cs

/-- `formatCameraName` from `src/utils/index.js`: falsy id gives
`"Unknown Camera"`; otherwise `camera_1 ↦ "Camera 1"`. -/
def formatCameraName (cameraId : Option String) : String :=
  match cameraId with
  | none => "Unknown Camera"
  | some s =>
    if s = "" then "Unknown Camera"
    else String.mk (upWordStarts false (replaceFirstUnderscore s.data))

/-- `getCameraLocation` from `src/utils/index.js`: fixed lookup table with
default `"Unknown Location"`. -/
def getCameraLocation (cameraId : Option String) : String :=
  match cameraId with
  | some "camera_1" => "Main Entrance"
  | some "camera_2" => "Office Floor"
  | some "camera_3" => "Parking Lot"
  | some "camera_4" => "Server Room"
  | _ => "Unknown Location"

/-- A camera record as a JS object: every field the source reads or writes,
plus `extra` for fields the normalization never touches (spread-preserved).
Timestamp fields are epoch milliseconds. -/
structure CameraObj where
  id : Option String := none
  name : Option String := none
  location : Option String := none
  status : Option String := none
  fps : Option ℚ := none
  person_count : Option ℚ := none
  personCount : Option ℚ := none
  last_frame_time : Option Int := none
  lastFrame : Option Int := none
  error : Option String := none
  extra : List (String × String) := []
  deriving DecidableEq, Repr

/-- The per-camera normalization of `getCameras`
(`src/api/index.js`, lines 113–122): spread of the raw record with
`personCount`, `lastFrame`, `status`, `fps`, `name`, `location` overridden. -/
def normalizeCamera (camera : CameraObj) : CameraObj :=
  { camera with
    personCount := some (numOrDefault (jsNumOr camera.person_count camera.personCount) 0)
    lastFrame := tsOr camera.last_frame_time camera.lastFrame
    status := some (strOrDefault camera.status "unknown")
    fps := some (numOrDefault camera.fps 0)
    name := some (strOrDefault camera.name (formatCameraName camera.id))
    location := some (strOrDefault camera.location (getCameraLocation camera.id)) }

/-- The map-shaped-envelope branch of `getCameras`
(`src/api/index.js`, lines 112–126): `Object.values(response.cameras)`
applied to a map keyed by camera id (modelled as an association list in
insertion order, as `Object.values` enumerates string keys), then the
per-camera normalization. -/
def getCamerasFromMap (m : List (String × CameraObj)) : List CameraObj :=
  (m.map Prod.snd).map normalizeCamera

example : (normalizeCamera { id := some "camera_1" }).name = some "Camera 1" := by decide
example : (normalizeCamera { status := some "ONLINE" }).status = some "ONLINE" := by decide
example : (normalizeCamera {}).lastFrame = none := by decide

/-- An access-log record as a JS object: every field the source reads or
writes, plus `extra` for spread-preserved fields. `timestamp` is epoch
milliseconds (see the module conventions). -/
structure LogObj where
  id : Option Int := none
  log_id : Option Int := none
  timestamp : Option Int := none
  camera_id : Option String := none
  person_id : Option String := none
  access_type : Option String := none
  access_result : Option String := none
  confidence : Option ℚ := none
  confidence_score : Option ℚ := none
  extra : List (String × String) := []
  deriving DecidableEq, Repr

/-- The per-entry normalization of `getAccessLogs`
(`src/api/index.js`, lines 139–149). `now` is the value of
`new Date().toISOString()` (epoch ms), the default for a missing
`timestamp`. -/
def normalizeLog (now : Int) (log : LogObj) : LogObj :=
  { log with
    log_id := jsIntOr log.id log.log_id
    access_result := jsStrOr log.access_type log.access_result
    confidence_score := jsNumOr log.confidence log.confidence_score
    timestamp := some (log.timestamp.getD now)
    camera_id := some (strOrDefault log.camera_id "unknown")
    person_id := some (strOrDefault log.person_id "unknown")
    access_type := some (strOrDefault log.access_type "unknown") }

/-- Shape of the `/access/logs` response body after the interceptor
unwrapped it: `{logs: [...]}`, a bare array, or anything else. -/
inductive LogsResponse where
  | withLogs (logs : List LogObj)
  | bare (logs : List LogObj)
  | other
  deriving DecidableEq, Repr

/-- The body of `getAccessLogs` after the HTTP call
(`src/api/index.js`, lines 138–153): an envelope with a `logs` array is
normalized entry-wise, a bare array is returned as is, anything else
yields `[]`. -/
def normalizeLogsResponse (now : Int) : LogsResponse → List LogObj
  | .withLogs logs => logs.map (normalizeLog now)
  | .bare logs => logs
  | .other => []

/-- The error the axios layer rejects with: carries the human-readable
message and stands for the original cause object. -/
structure ApiError where
  message : String
  deriving DecidableEq, Repr

/-- An HTTP response as axios delivers it to the response interceptor. -/
structure HttpResponse (α : Type) where
  data : α
  deriving DecidableEq, Repr

/-- The response interceptor (`src/api/index.js`, lines 94–100): a fulfilled
response is unwrapped to its `data`; a transport failure is logged and
re-rejected unchanged (`Promise.reject(error)`). A rejected promise is
`Except.error`. -/
def interceptResponse {α : Type} :
    Except ApiError (HttpResponse α) → Except ApiError α
  | .ok r => .ok r.data
  | .error e => .error e

/-- `getAccessLogs` (`src/api/index.js`, lines 134–154) as a function of the
transport outcome: `await api.get(...)` propagates a rejection out of the
async function, a fulfilled body goes through `normalizeLogsResponse`. -/
def getAccessLogsResult (now : Int)
    (transport : Except ApiError (HttpResponse LogsResponse)) :
    Except ApiError (List LogObj) :=
  match interceptResponse transport with
  | .ok body => .ok (normalizeLogsResponse now body)
  | .error e => .error e

/-- The mock access-log collection substituted by `AccessLogs.fetchLogs` on
fetch failure (`src/pages/AccessLogs.jsx`, lines 35–81). The five
timestamps are `Date.now()` minus fixed offsets, so the collection is a
function of the invocation time `now`. The confidence scores 0.95, 0.45,
0.88, 1.0, 0.92 are written as reduced fractions (19/20, 9/20, 22/25, 1,
23/25) so that they are kernel-computable literals. -/
def mockAccessLogs (now : Int) : List LogObj :=
  [ { log_id := some 1, timestamp := some (now - 5000),
      camera_id := some "camera_1", person_id := some "EMP001",
      access_type := some "face_recognition", access_result := some "granted",
      confidence_score := some ⟨19, 20, by decide, by decide⟩ },
    { log_id := some 2, timestamp := some (now - 15000),
      camera_id := some "camera_2", person_id := some "unknown",
      access_type := some "body_recognition", access_result := some "denied",
      confidence_score := some ⟨9, 20, by decide, by decide⟩ },
    { log_id := some 3, timestamp := some (now - 30000),
      camera_id := some "camera_1", person_id := some "EMP002",
      access_type := some "face_recognition", access_result := some "tailgating",
      confidence_score := some ⟨22, 25, by decide, by decide⟩ },
    { log_id := some 4, timestamp := some (now - 60000),
      camera_id := some "camera_3", person_id := some "EMP003",
      access_type := some "card_swipe", access_result := some "granted",
      confidence_score := some 1 },
    { log_id := some 5, timestamp := some (now - 120000),
      camera_id := some "camera_1", person_id := some "EMP001",
      access_type := some "face_recognition", access_result := some "granted",
      confidence_score := some ⟨23, 25, by decide, by decide⟩ } ]

/-- The mock camera collection substituted by `Dashboard.fetchData` on fetch
failure (`src/pages/Dashboard.jsx`, lines 57–90). The two `lastFrame`
values are `new Date().toISOString()` at invocation time `now`. -/
def mockCameras (now : Int) : List CameraObj :=
  [ { id := some "camera_1", name := some "Main Entrance",
      status := some "online", personCount := some 2, fps := some 30,
      lastFrame := some now },
    { id := some "camera_2", name := some "Office Floor",
      status := some "online", personCount := some 1, fps := some 28,
      lastFrame := some now },
    { id := some "camera_3", name := some "Parking Lot",
      status := some "offline", personCount := some 0, fps := some 0,
      error := some "Connection lost" },
    { id := some "camera_4", name := some "Server Room",
      status := some "error", personCount := some 0, fps := some 0,
      error := some "Hardware malfunction" } ]

/-- The state of `AccessLogs.fetchLogs` after one fetch
(`src/pages/AccessLogs.jsx`, lines 22–85): on success the fetched list and
no error; on a thrown error the mock collection and the error banner text.
Returned as (logs state, error state). -/
def fetchLogsState (now : Int)
    (transport : Except ApiError (HttpResponse LogsResponse)) :
    List LogObj × Option String :=
  match getAccessLogsResult now transport with
  | .ok logs => (logs, none)
  | .error _ => (mockAccessLogs now, some "Failed to load access logs")

/-- View-relevant state of the `Dashboard` component
(`src/pages/Dashboard.jsx`): whether the 30-second interval is installed,
whether a fetch is in flight, and the `cameras` state. -/
structure DashView where
  intervalActive : Bool
  inFlight : Bool
  cameras : List CameraObj
  deriving DecidableEq, Repr

/-- Events of the Dashboard polling lifecycle: the effect body on mount
(initial `fetchData()` plus `setInterval`), an interval tick, the cleanup
on unmount (`clearInterval` only), and resolution of an outstanding fetch
delivering a camera list. -/
inductive DashEvent where
  | mount
  | tick
  | unmount
  | resolve (cams : List CameraObj)
  deriving DecidableEq, Repr

/-- One step of the Dashboard polling lifecycle, as implemented by the
`useEffect` in `src/pages/Dashboard.jsx` (lines 21–101): mount starts a
fetch and installs the interval; a tick starts a fetch only while the
interval is installed; unmount clears the interval and nothing else (the
in-flight fetch is not cancelled); a resolving fetch applies `setCameras`
unconditionally — the source has no stopped-check or sequence guard. -/
def dashStep (s : DashView) : DashEvent → DashView
  | .mount => { s with intervalActive := true, inFlight := true }
  | .tick => if s.intervalActive then { s with inFlight := true } else s
  | .unmount => { s with intervalActive := false }
  | .resolve cams =>
    if s.inFlight then { s with inFlight := false, cameras := cams } else s

/-- Run a sequence of Dashboard lifecycle events from a state. -/
def dashRun (s : DashView) (events : List DashEvent) : DashView :=
  events.foldl dashStep s

/-- The Dashboard state before mounting: no interval, no fetch, empty
`cameras` (`useState([])`). -/
def dashInit : DashView :=
  { intervalActive := false, inFlight := false, cameras := [] }

example :
    (dashRun dashInit [.mount, .unmount, .resolve (mockCameras 0)]).cameras =
      mockCameras 0 := by decide

/-- Upper-case hexadecimal digit, for percent-encoding. -/
def hexDigit (n : Nat) : Char :=
  if n < 10 then Char.ofNat (48 + n) else Char.ofNat (55 + n)

/-- Percent-encoding of one byte, `%XX`. -/
def percentByte (b : UInt8) : List Char :=
  ['%', hexDigit (b.toNat / 16), hexDigit (b.toNat % 16)]

/-- `URLSearchParams` encoding of one character
(application/x-www-form-urlencoded): ASCII alphanumerics and `*-._` kept,
space becomes `+`, everything else percent-encodes its UTF-8 bytes. -/
def encodeChar (c : Char) : List Char :=
  if c.isAlphanum || c = '*' || c = '-' || c = '.' || c = '_' then [c]
  else if c = ' ' then ['+']
  else ((String.singleton c).toUTF8.toList.map percentByte).flatten

/-- `URLSearchParams` encoding of one key or value. -/
def encodeComponent (s : String) : String :=
  String.mk ((s.data.map encodeChar).flatten)

/-- `new URLSearchParams(params).toString()`
(`src/api/index.js`, line 135): `k₁=v₁&k₂=v₂&…` over the object's entries
in insertion order. -/
def urlSearchParams (params : List (String × String)) : String :=
  String.intercalate "&"
    (params.map (fun p => encodeComponent p.1 ++ "=" ++ encodeComponent p.2))

/-- The request path built by `getAccessLogs`
(`src/api/index.js`, lines 135–136). -/
def accessLogsUrl (params : List (String × String)) : String :=
  "/access/logs?" ++ urlSearchParams params

/-- The filter criteria held by `LogTable`
(`src/components/LogTable.jsx`, lines 15–22): six fields, empty when
inactive. The two date bounds are modelled as epoch milliseconds
(`none` = empty date input). -/
structure FilterCriteria where
  search : String := ""
  dateFrom : Option Int := none
  dateTo : Option Int := none
  employeeId : String := ""
  cameraId : String := ""
  status : String := ""
  deriving DecidableEq, Repr

/-- The filters object that `LogTable.handleFilterChange` hands to
`AccessLogs`, which forwards it verbatim to `getAccessLogs` as query
parameters (`src/pages/AccessLogs.jsx`, lines 25 and 87–89): all six keys
are serialized, empty or not. -/
def criteriaParams (c : FilterCriteria) : List (String × String) :=
  [ ("search", c.search),
    ("dateFrom", (c.dateFrom.map toString).getD ""),
    ("dateTo", (c.dateTo.map toString).getD ""),
    ("employeeId", c.employeeId),
    ("cameraId", c.cameraId),
    ("status", c.status) ]

/-- `itemsPerPage` (`src/components/LogTable.jsx`, line 24). -/
def itemsPerPage : Nat := 10

/-- `totalPages = Math.ceil(safeLogs.length / itemsPerPage)`
(`src/components/LogTable.jsx`, line 26). -/
def totalPages (logs : List LogObj) : Nat :=
  (logs.length + itemsPerPage - 1) / itemsPerPage

/-- `currentLogs = safeLogs.slice(startIndex, endIndex)` with
`startIndex = (currentPage - 1) * itemsPerPage` and
`endIndex = startIndex + itemsPerPage`
(`src/components/LogTable.jsx`, lines 27–29). The component state keeps
`currentPage ≥ 1`. -/
def currentLogs (logs : List LogObj) (page : Nat) : List LogObj :=
  (logs.drop ((page - 1) * itemsPerPage)).take itemsPerPage

/-- The result count the table reports (`"of {logs.length} results"`,
`src/components/LogTable.jsx`, line 215). -/
def displayedTotal (logs : List LogObj) : Nat :=
  logs.length

/-- The rows the log view renders for a fetched collection, a criteria
value and a page: `LogTable` derives `currentLogs` from `logs` and
`currentPage` alone — the `filters` state is only forwarded upward via
`onFilterChange`, never applied to the rows
(`src/components/LogTable.jsx`, lines 24–38 and 171). -/
def visibleRows (logs : List LogObj) (criteria : FilterCriteria)
    (page : Nat) : List LogObj :=
  let _ := criteria
  currentLogs logs page

/-- Decidable substring test on character lists (used only by the
spec-side predicate below). -/
def listSubOf (pat : List Char) : List Char → Bool
  | [] => pat.isEmpty
  | c :: rest => pat.isPrefixOf (c :: rest) || listSubOf pat rest

/-- Case-insensitive substring test on strings. -/
def containsSub (pat s : String) : Bool :=
  listSubOf pat.toLower.data s.toLower.data

/-- The searchable text of a log entry: concatenation of its text fields. -/
def searchText (l : LogObj) : String :=
  (l.person_id.getD "") ++ (l.camera_id.getD "") ++
    (l.access_type.getD "") ++ (l.access_result.getD "")

/-- Modelled from the spec (§4.5 FilterEngine), for comparison with the
source: the conjunction of the three predicate groups — case-insensitive
substring `search` (empty matches all), inclusive `dateFrom`/`dateTo`
bounds on `timestamp`, and exact `employeeId`/`cameraId`/`status` matches
when non-empty. No counterpart exists in the source: `LogTable` never
applies these predicates. -/
def matchesCriteriaSpec (c : FilterCriteria) (l : LogObj) : Bool :=
  (c.search = "" || containsSub c.search (searchText l)) &&
  (match c.dateFrom with
   | none => true
   | some lo => match l.timestamp with
     | none => false
     | some t => lo ≤ t) &&
  (match c.dateTo with
   | none => true
   | some hi => match l.timestamp with
     | none => false
     | some t => t ≤ hi) &&
  (c.employeeId = "" || l.person_id = some c.employeeId) &&
  (c.cameraId = "" || l.camera_id = some c.cameraId) &&
  (c.status = "" || l.access_result = some c.status)

/-- Modelled from the spec (§4.5): the visible slice the claimed
client-side pipeline would produce — filter by all active predicates, then
paginate. For comparison with `visibleRows`. -/
def visibleSliceSpec (logs : List LogObj) (c : FilterCriteria)
    (page : Nat) : List LogObj :=
  ((logs.filter (matchesCriteriaSpec c)).drop ((page - 1) * itemsPerPage)).take
    itemsPerPage

/-- `(score * 100).toFixed(1)` on the rational model of a JS number: the
digit string of score·100 with one decimal place, rounding to nearest
(ties up), computed on the exact rational as
`⌊1000·score + 1/2⌋ = ⌊(2000·num + den) / (2·den)⌋`. -/
def percentDigits (score : ℚ) : String :=
  let n : Int := Int.fdiv (2000 * score.num + (score.den : Int)) (2 * (score.den : Int))
  toString (Int.fdiv n 10) ++ "." ++ toString ((n % 10).natAbs)

/-- The template string `(score * 100).toFixed(1) + "%"`. -/
def percentString (score : ℚ) : String :=
  percentDigits score ++ "%"

/-- The Confidence table cell (`src/components/LogTable.jsx`, line 201):
`log.confidence_score ? ... : 'N/A'` — `undefined` and `0` are falsy. -/
def renderConfidence (confidence_score : Option ℚ) : String :=
  match confidence_score with
  | none => "N/A"
  | some x => if x = 0 then "N/A" else percentString x

/-- The Confidence CSV field built by `AccessLogs.handleExport`
(`src/pages/AccessLogs.jsx`, line 102): the same conditional expression as
the table cell. -/
def exportConfidence (confidence_score : Option ℚ) : String :=
  match confidence_score with
  | none => "N/A"
  | some x => if x = 0 then "N/A" else percentString x

example : renderConfidence (some ⟨19, 20, by decide, by decide⟩) = "95.0%" := by decide
example : renderConfidence (some 0) = "N/A" := by decide
example : accessLogsUrl [("status", "granted")] = "/access/logs?status=granted" := by
  decide

/-- A concrete denied log entry, as delivered by the backend. -/
def logDenied : LogObj :=
  { log_id := some 2, timestamp := some 1000, camera_id := some "camera_2",
    person_id := some "unknown", access_type := some "body_recognition",
    access_result := some "denied",
    confidence_score := some ⟨9, 20, by decide, by decide⟩ }

/-- Concrete criteria with only the `status` predicate active. -/
def critGranted : FilterCriteria :=
  { status := "granted" }

/-- A concrete camera record whose raw `status` is upper-case. -/
def cameraOnlineUpper : CameraObj :=
  { id := some "camera_1", status := some "ONLINE" }

/-- A concrete camera list delivered by a late fetch. -/
def cameraResolved : List CameraObj :=
  [{ id := some "camera_9", status := some "online" }]

/-- Any string ending in a percent sign differs from the string `"N/A"`. -/
theorem append_percent_ne_NA (s : String) : s ++ "%" ≠ "N/A" := by
  intro h
  have hd : s.data ++ ['%'] = "N/A".data := congrArg String.data h
  have h2 := congrArg List.getLast? hd
  rw [List.getLast?_concat] at h2
  exact absurd h2 (by decide)

/-- C1 counterexample: a raw log whose `access_result` is present
(`"granted"`) and whose `access_type` is `"face_recognition"` normalizes to
canonical `access_result = "face_recognition"` — the raw `access_result` is
not taken even though it is present, refuting the claimed fallback
direction. -/
theorem c1_counterexample :
    (normalizeLog 0 { access_type := some "face_recognition",
                      access_result := some "granted" }).access_result =
        some "face_recognition" ∧
    (normalizeLog 0 { access_type := some "face_recognition",
                      access_result := some "granted" }).access_result ≠
        some "granted" := by
  decide

/-- C1 (amended): in access-log normalization the fallback runs the other
way round: canonical `access_result` is taken from the raw `access_type`
when that is present and non-empty, and from the raw `access_result`
otherwise; canonical `access_type` is independently sourced from the raw
`access_type` with default `"unknown"`. -/
theorem c1_accessResult_sourcing (now : Int) (logs : List LogObj) :
    (normalizeLogsResponse now (.withLogs logs)).map (fun l => l.access_result) =
      logs.map (fun l => jsStrOr l.access_type l.access_result) ∧
    (normalizeLogsResponse now (.withLogs logs)).map (fun l => l.access_type) =
      logs.map (fun l => some (strOrDefault l.access_type "unknown")) := by
  constructor <;> · simp only [normalizeLogsResponse, List.map_map]; rfl

/-- C2 counterexample: with the sole active criterion `status = "granted"`
and a fetched collection holding one denied entry, the rendered rows are
not the predicate-filtered slice (the denied entry is shown), and the fetch
URL does depend on the criteria (it embeds `status=granted`), so the
criteria are sent to the backend. -/
theorem c2_counterexample :
    ¬ (visibleRows [logDenied] critGranted 1 =
         visibleSliceSpec [logDenied] critGranted 1 ∧
       accessLogsUrl (criteriaParams critGranted) =
         accessLogsUrl (criteriaParams {})) := by
  decide

/-- C2 (amended): filtering is not applied client-side: the criteria are
serialized into the query string of the backend fetch request, and the
visible rows are derived from the fetched collection by pagination alone —
they are a contiguous sublist of the collection and are identical for any
two criteria values. -/
theorem c2_clientside_filtering (logs : List LogObj)
    (c c₂ : FilterCriteria) (page : Nat) :
    visibleRows logs c page = visibleRows logs c₂ page ∧
    (visibleRows logs c page).Sublist logs ∧
    accessLogsUrl (criteriaParams c) =
      "/access/logs?" ++ urlSearchParams (criteriaParams c) := by
  refine ⟨rfl, ?_, rfl⟩
  exact (List.take_sublist _ _).trans (List.drop_sublist _ _)

/-- C3 counterexample: on a transport failure the gateway's
`getAccessLogs` does not return a tagged error value to its caller — the
rejection (modelled as `Except.error`) propagates past the gateway
boundary unchanged, so the caller receives a thrown exception, not a
result. -/
theorem c3_counterexample :
    getAccessLogsResult 0 (Except.error { message := "Network Error" }) =
      Except.error { message := "Network Error" } ∧
    (getAccessLogsResult 0
        (Except.error { message := "Network Error" })).isOk = false :=
  ⟨rfl, rfl⟩

/-- C3 (amended): on every transport failure the response interceptor logs
and re-rejects the original error unchanged, `getAccessLogs` propagates
that rejection past the gateway boundary with the original cause intact,
and the call site (`AccessLogs.fetchLogs`) catches the exception itself,
substituting the mock collection and an error banner. -/
theorem c3_error_propagation (now : Int) (e : ApiError) :
    getAccessLogsResult now (Except.error e) = Except.error e ∧
    @interceptResponse LogsResponse (Except.error e) = Except.error e ∧
    fetchLogsState now (Except.error e) =
      (mockAccessLogs now, some "Failed to load access logs") :=
  ⟨rfl, rfl, rfl⟩

/-- C4 counterexample: a raw camera record with `status: "ONLINE"`
normalizes to canonical status `"ONLINE"`, not `"online"` — the
normalization does not lower-case the status. -/
theorem c4_counterexample :
    (normalizeCamera cameraOnlineUpper).status ≠ some "online" := by
  decide

/-- C4 (amended): a raw camera record with no `status` (or an empty one)
normalizes to canonical status `"unknown"`; any non-empty raw status
string passes through unchanged (so `"ONLINE"` stays `"ONLINE"` rather
than becoming `"online"`). -/
theorem c4_status_normalization (camera : CameraObj) (s : String) (h : s ≠ "") :
    (normalizeCamera { camera with status := none }).status = some "unknown" ∧
    (normalizeCamera { camera with status := some "" }).status = some "unknown" ∧
    (normalizeCamera { camera with status := some s }).status = some s := by
  refine ⟨rfl, rfl, ?_⟩
  simp [normalizeCamera, strOrDefault, h]

/-- C4 witness: the amended statement applied to the concrete upper-cased
camera record with status `"ONLINE"`. -/
theorem c4_status_normalization_witness :
    "ONLINE" ≠ "" ∧
    (normalizeCamera { cameraOnlineUpper with status := some "ONLINE" }).status =
      some "ONLINE" :=
  ⟨by decide, (c4_status_normalization cameraOnlineUpper "ONLINE" (by decide)).2.2⟩

/-- C5 counterexample: with a collection holding a single denied entry and
the active criterion `status = "granted"`, the table's reported total is
the collection size (1), not the number of entries satisfying the active
predicates (0). -/
theorem c5_counterexample :
    ¬ ((currentLogs [logDenied] 1).length ≤ itemsPerPage ∧
       displayedTotal [logDenied] =
         (List.filter (matchesCriteriaSpec critGranted) [logDenied]).length) := by
  decide

/-- C5 (amended): the visible slice never exceeds the page size of 10, the
reported total equals the size of the whole fetched collection regardless
of filter criteria (the predicates are not applied client-side), and for
the empty collection `totalPages` is 0 and the slice is empty on every
page. -/
theorem c5_pagination (logs : List LogObj) (page : Nat) :
    (currentLogs logs page).length ≤ itemsPerPage ∧
    displayedTotal logs = logs.length ∧
    totalPages [] = 0 ∧
    currentLogs [] page = [] := by
  refine ⟨?_, rfl, rfl, ?_⟩
  · simp [currentLogs, List.length_take]
  · simp [currentLogs]

/-- C6 counterexample: the empty raw camera record normalizes to a
canonical record whose `lastFrame` is undefined, and the empty raw log
record normalizes to a canonical record whose `confidence_score` is
undefined — normalization does propagate absent fields for these two. -/
theorem c6_counterexample :
    (normalizeCamera {}).lastFrame = none ∧
    (normalizeLog 0 {}).confidence_score = none := by
  decide

/-- C6 (amended): the canonical fields that the source gives literal
defaults are always defined after normalization (camera `status`, `fps`,
`name`, `location`, `personCount`; log `timestamp`, `camera_id`,
`person_id`, `access_type`), but `Camera.lastFrame` and
`AccessLogEntry.confidence_score` (and `log_id`) are left undefined when
all of their raw source fields are absent or falsy. -/
theorem c6_defaulted_fields (camera : CameraObj) (log : LogObj) (now : Int) :
    ((normalizeCamera camera).status.isSome ∧
     (normalizeCamera camera).fps.isSome ∧
     (normalizeCamera camera).name.isSome ∧
     (normalizeCamera camera).location.isSome ∧
     (normalizeCamera camera).personCount.isSome) ∧
    ((normalizeLog now log).timestamp.isSome ∧
     (normalizeLog now log).camera_id.isSome ∧
     (normalizeLog now log).person_id.isSome ∧
     (normalizeLog now log).access_type.isSome) :=
  ⟨⟨rfl, rfl, rfl, rfl, rfl⟩, rfl, rfl, rfl, rfl⟩

/-- C7 counterexample: mounting the Dashboard (which starts a fetch and
the interval), then unmounting before the fetch resolves, then letting the
outstanding fetch resolve, leaves the view's `cameras` state changed by
that fetch — the cleanup clears only the interval, and the resolve handler
applies `setCameras` without any stopped-check. -/
theorem c7_counterexample :
    (dashRun dashInit [.mount, .unmount, .resolve cameraResolved]).cameras ≠
      (dashRun dashInit [.mount, .unmount]).cameras := by
  decide

/-- C7 (amended): after the subscription is stopped, interval ticks no
longer start fetches (the step is the identity once the interval is
cleared), but a response of a fetch still in flight at stop time does
mutate the view state: its camera list overwrites the `cameras` state. -/
theorem c7_polling_after_stop (s : DashView) (cams : List CameraObj)
    (hstop : s.intervalActive = false) (hpend : s.inFlight = true) :
    dashStep s .tick = s ∧
    (dashStep s (.resolve cams)).cameras = cams := by
  constructor
  · simp [dashStep, hstop]
  · simp [dashStep, hpend]

/-- C7 witness: the amended statement applied to the state reached by
mounting and unmounting with a fetch still outstanding. -/
theorem c7_polling_after_stop_witness :
    ((dashRun dashInit [.mount, .unmount]).intervalActive = false ∧
     (dashRun dashInit [.mount, .unmount]).inFlight = true) ∧
    (dashStep (dashRun dashInit [.mount, .unmount]) .tick =
        dashRun dashInit [.mount, .unmount] ∧
     (dashStep (dashRun dashInit [.mount, .unmount])
        (.resolve cameraResolved)).cameras = cameraResolved) :=
  ⟨⟨by decide, by decide⟩,
    c7_polling_after_stop _ cameraResolved (by decide) (by decide)⟩

/-- C8: the map-shaped cameras envelope is converted to a canonical array
with exactly one element per key (a two-key map yields a 2-element array),
each element being the normalization of that key's entry in enumeration
order; the conversion is lossless — the fields the normalization does not
re-derive (`id`, `error`, the raw `person_count` and `last_frame_time`
keys, and all unknown extra fields) are preserved verbatim. -/
theorem c8_map_envelope (m : List (String × CameraObj))
    (k₁ k₂ : String) (v₁ v₂ : CameraObj) :
    (getCamerasFromMap m).length = m.length ∧
    getCamerasFromMap m = m.map (fun kv => normalizeCamera kv.2) ∧
    (getCamerasFromMap m).map (fun c => c.id) = m.map (fun kv => kv.2.id) ∧
    (getCamerasFromMap m).map (fun c => c.error) = m.map (fun kv => kv.2.error) ∧
    (getCamerasFromMap m).map (fun c => c.extra) = m.map (fun kv => kv.2.extra) ∧
    (getCamerasFromMap m).map (fun c => c.person_count) =
      m.map (fun kv => kv.2.person_count) ∧
    (getCamerasFromMap m).map (fun c => c.last_frame_time) =
      m.map (fun kv => kv.2.last_frame_time) ∧
    (getCamerasFromMap [(k₁, v₁), (k₂, v₂)]).length = 2 := by
  refine ⟨by simp [getCamerasFromMap], ?_, ?_, ?_, ?_, ?_, ?_, rfl⟩ <;>
    · simp only [getCamerasFromMap, List.map_map]; rfl

/-- C9 counterexample: two invocations of the degraded access-log provider
at different clock times yield different collections — the five mock
timestamps are derived from `Date.now()`, so the data is not fixed seed
data. -/
theorem c9_counterexample : mockAccessLogs 0 ≠ mockAccessLogs 1 := by
  decide

/-- Erase the invocation-time-derived field of a mock log entry. -/
def eraseLogTime (l : LogObj) : LogObj :=
  { l with timestamp := none }

/-- Erase the invocation-time-derived field of a mock camera record. -/
def eraseCameraTime (c : CameraObj) : CameraObj :=
  { c with lastFrame := none }

/-- C9 (amended): the degraded data is deterministic only as a function of
the invocation time: everything except the timestamp fields is fixed seed
data — the collections of any two invocations agree after erasing the
time-derived fields (`timestamp` for logs, `lastFrame` for cameras), but
those fields themselves vary with the clock. -/
theorem c9_degraded_seed (t₁ t₂ : Int) :
    (mockAccessLogs t₁).map eraseLogTime = (mockAccessLogs t₂).map eraseLogTime ∧
    (mockCameras t₁).map eraseCameraTime = (mockCameras t₂).map eraseCameraTime :=
  ⟨rfl, rfl⟩

/-- C10: both the rendered Confidence cell and the exported CSV field show
`"N/A"` for an absent confidence score and for a confidence score of
exactly 0 (never `"0.0%"`), and produce the one-decimal percentage string
exactly for the nonzero, non-null scores — and that string is never
`"N/A"`. -/
theorem c10_confidence_display (q : ℚ) (h : q ≠ 0) :
    renderConfidence none = "N/A" ∧
    renderConfidence (some 0) = "N/A" ∧
    exportConfidence none = "N/A" ∧
    exportConfidence (some 0) = "N/A" ∧
    renderConfidence (some q) = percentString q ∧
    exportConfidence (some q) = percentString q ∧
    percentString q ≠ "N/A" := by
  refine ⟨rfl, by simp [renderConfidence], rfl, by simp [exportConfidence],
    by simp [renderConfidence, h], by simp [exportConfidence, h], ?_⟩
  exact append_percent_ne_NA (percentDigits q)

/-- C10 witness: the theorem applied at confidence score 1, where the cell
shows `"100.0%"`. -/
theorem c10_confidence_display_witness :
    (1 : ℚ) ≠ 0 ∧ renderConfidence (some 1) = percentString 1 ∧
      percentString 1 ≠ "N/A" :=
  ⟨by decide, (c10_confidence_display 1 (by decide)).2.2.2.2.1,
    (c10_confidence_display 1 (by decide)).2.2.2.2.2.2⟩
